import Mathlib

/-
  Shallow embedding of src/src/index.ts (Pixel Pirates API, Cloudflare Worker).
  The analyze handler (handleAnalysis), the posts handler (handlePosts) and the
  cache-key hash (hashString) are translated into pure Lean functions; the D1
  database and the KV cache become explicit state passed through the handlers.
-/

namespace PixelPirates

/-- Characters of a JavaScript string, modelled as a list of Unicode scalar values. -/
abbrev Str := List Char

/-- The toLowerCase mapping of JavaScript strings, restricted to the ASCII range
    (all keyword matching in the source involves only ASCII characters). -/
def jsCharToLower (c : Char) : Char :=
  if 'A' ≤ c ∧ c ≤ 'Z' then Char.ofNat (c.toNat + 32) else c

/-- Model of content.toLowerCase() in handleAnalysis. -/
def jsToLower (s : Str) : Str := s.map jsCharToLower

/-- Boolean list-prefix test used to build the substring test below. -/
def isPrefixChars : Str → Str → Bool
  | [], _ => true
  | _ :: _, [] => false
  | a :: as, b :: bs => a == b && isPrefixChars as bs

/-- Model of haystack.includes(needle) on JavaScript strings. -/
def containsSubstr (needle : Str) : Str → Bool
  | [] => isPrefixChars needle []
  | c :: cs => isPrefixChars needle (c :: cs) || containsSubstr needle cs

/-- The five suspicious keywords of handleAnalysis (src/src/index.ts line 183). -/
def suspiciousKeywords : List Str :=
  ["click here".toList, "act now".toList, "limited time".toList,
   "guaranteed".toList, "free money".toList]

/-- Model of suspiciousKeywords.some(keyword => contentLower.includes(keyword)). -/
def foundSuspicious (content : Str) : Bool :=
  suspiciousKeywords.any fun k => containsSubstr k (jsToLower content)

/-- The literal 0.75 of the source as an explicit rational, so that kernel
    evaluation works on it; q075_eq below checks it is the decimal 0.75. -/
def q075 : ℚ := ⟨3, 4, by norm_num, by norm_num⟩

/-- The literal 0.35 of the source as an explicit rational. -/
def q035 : ℚ := ⟨7, 20, by norm_num, by norm_num⟩

/-- The literal 0.5 of the source as an explicit rational. -/
def q05 : ℚ := ⟨1, 2, by norm_num, by norm_num⟩

/-- The literal 0.85 of the source as an explicit rational. -/
def q085 : ℚ := ⟨17, 20, by norm_num, by norm_num⟩

lemma q075_eq : q075 = 0.75 := by rw [← Rat.num_div_den q075]; norm_num [q075]

lemma q035_eq : q035 = 0.35 := by rw [← Rat.num_div_den q035]; norm_num [q035]

lemma q05_eq : q05 = 0.5 := by rw [← Rat.num_div_den q05]; norm_num [q05]

lemma q085_eq : q085 = 0.85 := by rw [← Rat.num_div_den q085]; norm_num [q085]

/-- The credibility score of handleAnalysis: 0.75 by default, 0.35 when a
    suspicious keyword occurs in the lowercased content (lines 180-188). -/
def credibilityScore (content : Str) : ℚ :=
  if foundSuspicious content then q035 else q075

/-- Model of isMisinformation = credibilityScore < 0.5 (line 190). -/
def isMisinformation (content : Str) : Bool :=
  decide (credibilityScore content < q05)

/-- The confidence value bound into the analysis row and the response (lines 219 and 227). -/
def confidence : ℚ := q085

/-- The recommendation string of the response (lines 228-230). -/
def recommendation (misinfo : Bool) : Str :=
  if misinfo then "Verify with additional sources".toList
  else "Content appears credible".toList

/-- UTF-16 code units of one character, as charCodeAt reads them in JavaScript. -/
def utf16Units (c : Char) : List Nat :=
  if c.toNat < 65536 then [c.toNat]
  else [55296 + (c.toNat - 65536) / 1024, 56320 + (c.toNat - 65536) % 1024]

/-- The sequence of UTF-16 code units of a string. -/
def strUnits (s : Str) : List Nat := (s.map utf16Units).flatten

/-- Coercion of an integer into the signed 32 bit range, as the JavaScript
    bitwise operators perform it. -/
def toInt32 (n : Int) : Int :=
  if n % 4294967296 < 2147483648 then n % 4294967296 else n % 4294967296 - 4294967296

/-- One loop iteration of hashString (lines 294-296): hash becomes
    (hash << 5) - hash + char coerced by hash & hash to the int32 range. -/
def hashStep (hash : Int) (c : Nat) : Int :=
  toInt32 (toInt32 (hash * 32) - hash + (c : Int))

/-- The function hashString of src/src/index.ts (lines 291-299), iterating over the
    UTF-16 code units of the input; the final Math.abs is the absolute value. -/
def hashString (s : Str) : Nat :=
  ((strUnits s).foldl hashStep 0).natAbs

/-- The KV cache key: the template literal analysis_ followed by the decimal
    digits of hashString(content) (line 193). -/
def cacheKey (content : Str) : Str :=
  "analysis_".toList ++ Nat.toDigits 10 (hashString content)

/-- One KV cache entry, as serialized on line 196-199, with its expiry instant
    (insertion time plus the expirationTtl of 3600 seconds). -/
structure CacheEntry where
  credibility_score : ℚ
  is_misinformation : Bool
  expiresAt : Nat
deriving DecidableEq

/-- A row of the posts table, restricted to the columns the worker binds or reads. -/
structure PostRow where
  id : Nat
  user_id : Nat
  content : Str
  created_at : Nat
deriving DecidableEq

/-- A row of the analysis_results table, restricted to the columns the worker binds. -/
structure AnalysisRow where
  id : Nat
  post_id : Nat
  user_id : Nat
  credibility_score : ℚ
  is_misinformation : Bool
  confidence : ℚ
  analysis_type : Str
deriving DecidableEq

/-- The D1 database state: both tables plus their autoincrement counters. -/
structure Db where
  posts : List PostRow
  analysis_results : List AnalysisRow
  nextPostId : Nat
  nextAnalysisId : Nat
deriving DecidableEq

/-- The worker state: the D1 database and the KV cache (an association list). -/
structure WorkerState where
  db : Db
  cache : List (Str × CacheEntry)
deriving DecidableEq

/-- KV put: overwrite the value stored under the key. -/
def kvPut (cache : List (Str × CacheEntry)) (key : Str) (v : CacheEntry) :
    List (Str × CacheEntry) :=
  (key, v) :: cache.filter fun p => p.1 != key

/-- Model of data.user_id || 1 (line 204): absent or zero (falsy) becomes 1. -/
def userIdOr1 : Option Nat → Nat
  | none => 1
  | some 0 => 1
  | some n => n

/-- The JSON body of a successful analyze response (lines 222-233). -/
structure AnalyzeResponse where
  post_id : Nat
  credibility_score : ℚ
  is_misinformation : Bool
  confidence : ℚ
  recommendation : Str
deriving DecidableEq

/-- Outcome of the analyze handler: an error response with its HTTP status, or
    the success body. -/
inductive AnalyzeOutcome where
  | error (status : Nat) (message : Str)
  | ok (response : AnalyzeResponse)
deriving DecidableEq

/-- The POST branch of handleAnalysis (src/src/index.ts lines 169-233).
    contentOpt models data.content (absent becomes the empty string via
    data.content || the empty string); now is the request instant in seconds. -/
def handleAnalysis (contentOpt : Option Str) (userIdOpt : Option Nat) (now : Nat)
    (st : WorkerState) : AnalyzeOutcome × WorkerState :=
  let content := contentOpt.getD []
  if content = [] then
    (.error 400 "Content required".toList, st)
  else
    let score := credibilityScore content
    let misinfo := isMisinformation content
    let cache1 := kvPut st.cache (cacheKey content) ⟨score, misinfo, now + 3600⟩
    let uid := userIdOr1 userIdOpt
    let pid := st.db.nextPostId
    let db1 : Db :=
      { posts := st.db.posts ++ [⟨pid, uid, content, now⟩]
        analysis_results := st.db.analysis_results ++
          [⟨st.db.nextAnalysisId, pid, uid, score, misinfo, confidence, "basic".toList⟩]
        nextPostId := pid + 1
        nextAnalysisId := st.db.nextAnalysisId + 1 }
    (.ok ⟨pid, score, misinfo, confidence, recommendation misinfo⟩, ⟨db1, cache1⟩)

/-- The initial worker state: empty tables, autoincrement counters at 1, empty cache. -/
def state0 : WorkerState :=
  { db := { posts := [], analysis_results := [], nextPostId := 1, nextAnalysisId := 1 }
    cache := [] }

/-- The GET request to the posts endpoint, with the caller-supplied data the
    handler could in principle observe: an authorization token and query
    parameters. The source ignores both (line 251 hardcodes userId = 1). -/
structure PostsRequest where
  method : Str
  authToken : Option Str
  queryParams : List (Str × Str)
deriving DecidableEq

/-- One row of the LEFT JOIN result of the posts query (lines 253-262):
    the post columns plus the two analysis columns, null when no analysis row
    matches. -/
structure JoinedRow where
  id : Nat
  user_id : Nat
  created_at : Nat
  content : Str
  credibility_score : Option ℚ
  is_misinformation : Option Bool
deriving DecidableEq

/-- LEFT JOIN of one post with analysis_results ON p.id = a.post_id: one output
    row per matching analysis row, or a single row with nulls when none match. -/
def joinPost (analyses : List AnalysisRow) (p : PostRow) : List JoinedRow :=
  if (analyses.filter fun a => a.post_id == p.id).isEmpty then
    [⟨p.id, p.user_id, p.created_at, p.content, none, none⟩]
  else (analyses.filter fun a => a.post_id == p.id).map fun a =>
    ⟨p.id, p.user_id, p.created_at, p.content, some a.credibility_score,
      some a.is_misinformation⟩

/-- Ordering used to model ORDER BY created_at DESC: row a may precede row b
    when the timestamp of b is at most the timestamp of a. -/
def postLaterEq (a b : PostRow) : Prop := b.created_at ≤ a.created_at

instance : DecidableRel postLaterEq := fun a b =>
  inferInstanceAs (Decidable (b.created_at ≤ a.created_at))

instance : IsTotal PostRow postLaterEq :=
  ⟨fun a b => Nat.le_total b.created_at a.created_at⟩

instance : IsTrans PostRow postLaterEq :=
  ⟨fun _ _ _ hab hbc => le_trans hbc hab⟩

/-- The SQL query of handlePosts (lines 253-262): filter posts to the given
    user, order by created_at descending, LEFT JOIN analysis_results, LIMIT 20. -/
def postsQuery (db : Db) (userId : Nat) : List JoinedRow :=
  ((((List.insertionSort postLaterEq (db.posts.filter fun p => p.user_id == userId)).map
      (joinPost db.analysis_results)).flatten).take 20)

/-- Outcome of the posts handler: the rows and the count field, or the 405 branch. -/
inductive PostsOutcome where
  | ok (posts : List JoinedRow) (count : Nat)
  | methodNotAllowed
deriving DecidableEq

/-- The GET branch of handlePosts (src/src/index.ts lines 246-281): userId is the
    constant 1; nothing of the request except its method is consulted. -/
def handlePosts (req : PostsRequest) (db : Db) : PostsOutcome :=
  if req.method = "GET".toList then
    let rows := postsQuery db 1
    .ok rows rows.length
  else .methodNotAllowed

/-- The four verdict labels of the specification. The worker emits none of them. -/
inductive Verdict where
  | VERIFIED
  | UNCLEAR
  | LIKELY_FAKE
  | CONFIRMED_FAKE
deriving DecidableEq

/-- Modelled from the spec: verdict banding over the final score, section 4.2 of
    the specification (70 and 50 band cutoffs; a heuristic score below 30 reports
    as LIKELY_FAKE, never CONFIRMED_FAKE). Stated only for comparison against the
    code, which emits no verdict field at all. -/
def specVerdictBand (score : ℚ) : Verdict :=
  if 70 ≤ score then .VERIFIED
  else if 50 ≤ score then .UNCLEAR
  else .LIKELY_FAKE

/-- Well-formed database: every row identifier is below its autoincrement counter. -/
def Db.WF (db : Db) : Prop :=
  (∀ p ∈ db.posts, p.id < db.nextPostId) ∧
  (∀ a ∈ db.analysis_results, a.id < db.nextAnalysisId)

/- Helper lemmas shared by the claim theorems. -/

lemma credibilityScore_cases (content : Str) :
    credibilityScore content = q035 ∨ credibilityScore content = q075 := by
  unfold credibilityScore
  split <;> simp

lemma credibilityScore_of_not_suspicious {content : Str}
    (h : foundSuspicious content = false) : credibilityScore content = q075 := by
  simp [credibilityScore, h]

lemma credibilityScore_of_suspicious {content : Str}
    (h : foundSuspicious content = true) : credibilityScore content = q035 := by
  simp [credibilityScore, h]

lemma isMisinformation_iff (content : Str) :
    isMisinformation content = true ↔ credibilityScore content = q035 := by
  rcases credibilityScore_cases content with h | h <;> simp [isMisinformation, h] <;> decide

lemma isMisinformation_false_iff (content : Str) :
    isMisinformation content = false ↔ credibilityScore content = q075 := by
  rcases credibilityScore_cases content with h | h <;> simp [isMisinformation, h] <;> decide

lemma credibilityScore_eq_q035_iff (content : Str) :
    credibilityScore content = q035 ↔ foundSuspicious content = true := by
  cases hf : foundSuspicious content
  · simp only [credibilityScore_of_not_suspicious hf]
    simp only [Bool.false_eq_true, iff_false]
    decide
  · simp [credibilityScore_of_suspicious hf]

lemma foundSuspicious_iff (content : Str) :
    foundSuspicious content = true ↔
      (containsSubstr "click here".toList (jsToLower content) = true ∨
       containsSubstr "act now".toList (jsToLower content) = true ∨
       containsSubstr "limited time".toList (jsToLower content) = true ∨
       containsSubstr "guaranteed".toList (jsToLower content) = true ∨
       containsSubstr "free money".toList (jsToLower content) = true) := by
  simp [foundSuspicious, suspiciousKeywords]

/-- Evaluation of the POST branch of handleAnalysis on non-empty content: the
    response and the new state, spelled out. -/
lemma handleAnalysis_ok {content : Str} (h : content ≠ []) (uid : Option Nat)
    (now : Nat) (st : WorkerState) :
    handleAnalysis (some content) uid now st =
      (.ok ⟨st.db.nextPostId, credibilityScore content, isMisinformation content,
          confidence, recommendation (isMisinformation content)⟩,
       ⟨{ posts := st.db.posts ++ [⟨st.db.nextPostId, userIdOr1 uid, content, now⟩]
          analysis_results := st.db.analysis_results ++
            [⟨st.db.nextAnalysisId, st.db.nextPostId, userIdOr1 uid,
              credibilityScore content, isMisinformation content, confidence,
              "basic".toList⟩]
          nextPostId := st.db.nextPostId + 1
          nextAnalysisId := st.db.nextAnalysisId + 1 },
        kvPut st.cache (cacheKey content)
          ⟨credibilityScore content, isMisinformation content, now + 3600⟩⟩) := by
  unfold handleAnalysis
  rw [show (some content).getD [] = content from rfl, if_neg h]

/-- C5: if the submitted content is empty or missing, the analyze operation
    fails with a 400 Content required error surfaced directly to the caller and
    the whole worker state, cache and history store included, is unchanged. -/
theorem C5_empty_content_rejected_without_persistence
    (contentOpt : Option Str) (userIdOpt : Option Nat) (now : Nat) (st : WorkerState)
    (h : contentOpt = none ∨ contentOpt = some []) :
    handleAnalysis contentOpt userIdOpt now st =
      (.error 400 "Content required".toList, st) := by
  rcases h with h | h <;> subst h <;> rfl

theorem C5_witness :
    handleAnalysis none (some 7) 5 state0 = (.error 400 "Content required".toList, state0) :=
  C5_empty_content_rejected_without_persistence none (some 7) 5 state0 (Or.inl rfl)

/-- C7 counterexample: the score of a plain content is the rational 0.75, which
    is not an integer, against the claim that scores are integers in 0 to 100. -/
theorem C7_counterexample :
    credibilityScore "hello".toList = 0.75 ∧
    Rat.isInt (credibilityScore "hello".toList) = false := by
  refine ⟨?_, by decide⟩
  have h : credibilityScore "hello".toList = q075 := by decide
  rw [h, q075_eq]

/-- C7 amended: for every content the score is one of the rationals 0.35 and
    0.75, so it lies in the closed interval from 0 to 1 (hence also below 100),
    and the confidence is the constant 0.85, inside the closed interval from
    0 to 1; but the score is not on an integer 0 to 100 scale. -/
theorem C7_amended_score_confidence_bounds (content : Str) :
    (0:ℚ) ≤ credibilityScore content ∧ credibilityScore content ≤ 1 ∧
    (credibilityScore content = 0.35 ∨ credibilityScore content = 0.75) ∧
    (0:ℚ) ≤ confidence ∧ confidence ≤ 1 ∧ confidence = 0.85 := by
  rcases credibilityScore_cases content with h | h <;>
    rw [h] <;>
    refine ⟨by decide, by decide, ?_, by decide, by decide, by rw [confidence, q085_eq]⟩
  · exact Or.inl q035_eq
  · exact Or.inr q075_eq

/- Bounds on the hash accumulator, used for the amended form of C8. -/

lemma toInt32_mem (n : Int) :
    -2147483648 ≤ toInt32 n ∧ toInt32 n < 2147483648 := by
  unfold toInt32
  have h0 : (0:Int) ≤ n % 4294967296 := Int.emod_nonneg n (by norm_num)
  have h1 : n % 4294967296 < 4294967296 := Int.emod_lt_of_pos n (by norm_num)
  split <;> omega

lemma hashFold_mem (l : List Nat) (h : Int) (hh : -2147483648 ≤ h ∧ h < 2147483648) :
    -2147483648 ≤ l.foldl hashStep h ∧ l.foldl hashStep h < 2147483648 := by
  induction l generalizing h with
  | nil => exact hh
  | cons c cs ih => exact ih _ (toInt32_mem _)

lemma hashString_le (s : Str) : hashString s ≤ 2147483648 := by
  have h := hashFold_mem (strUnits s) 0 (by norm_num)
  unfold hashString
  omega

/-- C8 counterexample: the contents Aa and BB are byte-distinct yet share the
    fingerprint 2112, against the claim that distinct contents get distinct
    fingerprints. -/
theorem C8_counterexample :
    "Aa".toList ≠ "BB".toList ∧
    hashString "Aa".toList = hashString "BB".toList ∧
    hashString "Aa".toList = 2112 := by
  refine ⟨by decide, by decide, by decide⟩

/-- C8 amended: the fingerprint is deterministic, a pure function of the
    content, and its value is bounded by 2 to the 31 (it is a 32 bit hash under
    an absolute value); it is not content-defining, since byte-distinct
    contents can share a fingerprint. -/
theorem C8_amended_deterministic_bounded (s t : Str) (h : s = t) :
    hashString s = hashString t ∧ hashString s ≤ 2147483648 := by
  subst h
  exact ⟨rfl, hashString_le s⟩

theorem C8_witness :
    hashString "a".toList = hashString "a".toList ∧ hashString "a".toList ≤ 2147483648 :=
  C8_amended_deterministic_bounded "a".toList "a".toList rfl

/-- C1 counterexample: for the content given by the spec scenario (credible
    pattern, neutral sentiment, high complexity) the code computes the score
    0.75, not the claimed base 50 plus 30 plus 15 plus 10 clamped to 100. -/
theorem C1_counterexample :
    credibilityScore "A peer-reviewed study published in Nature found...".toList = 0.75 ∧
    (0.75 : ℚ) ≠ 100 := by
  constructor
  · have h : credibilityScore
        "A peer-reviewed study published in Nature found...".toList = q075 := by decide
    rw [h, q075_eq]
  · norm_num

/-- C1 amended: for every non-empty content the scoring operation performs no
    base 50 signal combination: the score is the constant 0.75, lowered to the
    constant 0.35 exactly when a suspicious keyword occurs, and the spec
    scenario content scores 0.75, not 100. -/
theorem C1_amended_keyword_scoring (content : Str) (h : content ≠ []) :
    (credibilityScore content = 0.35 ∨ credibilityScore content = 0.75) ∧
    (credibilityScore content = 0.35 ↔ foundSuspicious content = true) ∧
    (foundSuspicious content = false → credibilityScore content = 0.75) ∧
    credibilityScore "A peer-reviewed study published in Nature found...".toList = 0.75 := by
  refine ⟨?_, ?_, ?_, ?_⟩
  · rcases credibilityScore_cases content with hc | hc
    · exact Or.inl (by rw [hc, q035_eq])
    · exact Or.inr (by rw [hc, q075_eq])
  · rw [show (0.35:ℚ) = q035 from q035_eq.symm]
    exact credibilityScore_eq_q035_iff content
  · intro hf
    rw [credibilityScore_of_not_suspicious hf, q075_eq]
  · have hx : credibilityScore
        "A peer-reviewed study published in Nature found...".toList = q075 := by decide
    rw [hx, q075_eq]

theorem C1_witness :
    (credibilityScore "hello".toList = 0.35 ∨ credibilityScore "hello".toList = 0.75) ∧
    (credibilityScore "hello".toList = 0.35 ↔ foundSuspicious "hello".toList = true) ∧
    (foundSuspicious "hello".toList = false → credibilityScore "hello".toList = 0.75) ∧
    credibilityScore "A peer-reviewed study published in Nature found...".toList = 0.75 :=
  C1_amended_keyword_scoring "hello".toList (by decide)

/-- C2 counterexample: at the content hello the code scores 0.75, which the
    claimed banding maps to LIKELY_FAKE (it is below 30), yet the code
    classifies the same request as credible, not misinformation; the response
    carries no verdict field at all. -/
theorem C2_counterexample :
    specVerdictBand (credibilityScore "hello".toList) = Verdict.LIKELY_FAKE ∧
    isMisinformation "hello".toList = false ∧
    recommendation (isMisinformation "hello".toList) =
      "Content appears credible".toList := by
  refine ⟨by decide, by decide, by decide⟩

/-- C2 amended: the response carries no four-band verdict; its classification
    is the boolean is_misinformation, a pure function of the score with the
    single threshold 0.5: true exactly when the score is 0.35, false exactly
    when it is 0.75, and the recommendation string is determined by it. -/
theorem C2_amended_binary_classification (content : Str) :
    (isMisinformation content = true ↔ credibilityScore content < 0.5) ∧
    (isMisinformation content = true ↔ credibilityScore content = 0.35) ∧
    (isMisinformation content = false ↔ credibilityScore content = 0.75) ∧
    (recommendation (isMisinformation content) =
        "Verify with additional sources".toList ↔ isMisinformation content = true) ∧
    (recommendation (isMisinformation content) =
        "Content appears credible".toList ↔ isMisinformation content = false) := by
  refine ⟨?_, ?_, ?_, ?_, ?_⟩
  · rw [show (0.5:ℚ) = q05 from q05_eq.symm]
    simp [isMisinformation]
  · rw [show (0.35:ℚ) = q035 from q035_eq.symm]
    exact isMisinformation_iff content
  · rw [show (0.75:ℚ) = q075 from q075_eq.symm]
    exact isMisinformation_false_iff content
  · cases hm : isMisinformation content <;> simp [recommendation]
  · cases hm : isMisinformation content <;> simp [recommendation]

/-- C3 counterexample: for the content that the spec scenario registers as a
    known fake, the analyze handler in the code returns an ordinary heuristic
    response with score 0.75 and the credible recommendation; the response has
    no verdict, no fact-checker attribution and the state has no report count
    to increment, so no registry hit can force CONFIRMED_FAKE. -/
theorem C3_counterexample :
    (handleAnalysis (some "Breaking news: Scientists discover cure for aging!".toList)
        none 0 state0).1 =
      .ok ⟨1, q075, false, q085, "Content appears credible".toList⟩ ∧
    q075 = 0.75 ∧ q085 = 0.85 :=
  ⟨by decide, q075_eq, q085_eq⟩

/-- C3 amended: the worker keeps no known-fakes registry: the analyze response
    is the same pure function of the content alone under any two worker states,
    caller identities and instants (apart from the autoincrement post id), and
    its only classification output is the recommendation string, one of two
    fixed values, never a CONFIRMED_FAKE verdict or a fact-checker name. -/
theorem C3_amended_no_registry (content : Str) (h : content ≠ [])
    (uid1 uid2 : Option Nat) (now1 now2 : Nat) (st1 st2 : WorkerState) :
    (handleAnalysis (some content) uid1 now1 st1).1 =
      .ok ⟨st1.db.nextPostId, credibilityScore content, isMisinformation content,
        confidence, recommendation (isMisinformation content)⟩ ∧
    (handleAnalysis (some content) uid2 now2 st2).1 =
      .ok ⟨st2.db.nextPostId, credibilityScore content, isMisinformation content,
        confidence, recommendation (isMisinformation content)⟩ ∧
    (recommendation (isMisinformation content) =
        "Verify with additional sources".toList ∨
     recommendation (isMisinformation content) =
        "Content appears credible".toList) := by
  refine ⟨?_, ?_, ?_⟩
  · rw [handleAnalysis_ok h]
  · rw [handleAnalysis_ok h]
  · cases isMisinformation content <;> simp [recommendation]

theorem C3_witness :
    (handleAnalysis (some "hello".toList) none 0 state0).1 =
      .ok ⟨state0.db.nextPostId, credibilityScore "hello".toList,
        isMisinformation "hello".toList, confidence,
        recommendation (isMisinformation "hello".toList)⟩ ∧
    (handleAnalysis (some "hello".toList) (some 2) 9 state0).1 =
      .ok ⟨state0.db.nextPostId, credibilityScore "hello".toList,
        isMisinformation "hello".toList, confidence,
        recommendation (isMisinformation "hello".toList)⟩ ∧
    (recommendation (isMisinformation "hello".toList) =
        "Verify with additional sources".toList ∨
     recommendation (isMisinformation "hello".toList) =
        "Content appears credible".toList) :=
  C3_amended_no_registry "hello".toList (by decide) none (some 2) 0 9 state0 state0

/-- C4 counterexample: submitting the content hello twice, the second time 100
    seconds after the first (well inside the 3600 second validity window of the
    cache entry the first call wrote), the second call recomputes and persists a
    second post row instead of serving the stored result, and its response
    carries no cached flag: its complete value is listed here. -/
theorem C4_counterexample :
    (handleAnalysis (some "hello".toList) none 100
        (handleAnalysis (some "hello".toList) none 0 state0).2).1 =
      .ok ⟨2, q075, false, q085, "Content appears credible".toList⟩ ∧
    ((handleAnalysis (some "hello".toList) none 100
        (handleAnalysis (some "hello".toList) none 0 state0).2).2).db.posts.length = 2 ∧
    (((handleAnalysis (some "hello".toList) none 0 state0).2).cache.map
        fun p => p.2.expiresAt) = [3600] ∧
    q075 = 0.75 :=
  ⟨by decide, by decide, by decide, q075_eq⟩

/-- C4 amended: the handler writes each result to the cache with a 3600 second
    ttl but never reads the cache back: a second identical submission, at any
    instant, recomputes deterministically the same score, classification,
    confidence and recommendation, inserts a fresh post row (the post id grows
    by one and the posts table by two rows), and no response carries a cached
    flag. -/
theorem C4_amended_no_cache_read (content : Str) (h : content ≠ [])
    (uid : Option Nat) (now1 now2 : Nat) (st : WorkerState) :
    ∃ r1 r2 : AnalyzeResponse,
      (handleAnalysis (some content) uid now1 st).1 = .ok r1 ∧
      (handleAnalysis (some content) uid now2
          (handleAnalysis (some content) uid now1 st).2).1 = .ok r2 ∧
      r2.credibility_score = r1.credibility_score ∧
      r2.is_misinformation = r1.is_misinformation ∧
      r2.confidence = r1.confidence ∧
      r2.recommendation = r1.recommendation ∧
      r2.post_id = r1.post_id + 1 ∧
      ((handleAnalysis (some content) uid now2
          (handleAnalysis (some content) uid now1 st).2).2).db.posts.length =
        st.db.posts.length + 2 := by
  rw [handleAnalysis_ok h, handleAnalysis_ok h]
  refine ⟨_, _, rfl, rfl, rfl, rfl, rfl, rfl, ?_⟩
  simp

theorem C4_witness :
    ∃ r1 r2 : AnalyzeResponse,
      (handleAnalysis (some "hi".toList) none 0 state0).1 = .ok r1 ∧
      (handleAnalysis (some "hi".toList) none 100
          (handleAnalysis (some "hi".toList) none 0 state0).2).1 = .ok r2 ∧
      r2.credibility_score = r1.credibility_score ∧
      r2.is_misinformation = r1.is_misinformation ∧
      r2.confidence = r1.confidence ∧
      r2.recommendation = r1.recommendation ∧
      r2.post_id = r1.post_id + 1 ∧
      ((handleAnalysis (some "hi".toList) none 100
          (handleAnalysis (some "hi".toList) none 0 state0).2).2).db.posts.length =
        state0.db.posts.length + 2 :=
  C4_amended_no_cache_read "hi".toList (by decide) none 0 100 state0

/-- C6 counterexample: two submissions of the identical content (the same
    logical scan) leave two post rows with that content and two analysis rows
    in the store, not one: re-appending is not a no-op, and the code offers no
    scan identifier under which an append could be deduplicated. -/
theorem C6_counterexample :
    (((handleAnalysis (some "hello".toList) none 0
        (handleAnalysis (some "hello".toList) none 0 state0).2).2).db.posts.filter
          fun p => p.content == "hello".toList).length = 2 ∧
    ((handleAnalysis (some "hello".toList) none 0
        (handleAnalysis (some "hello".toList) none 0 state0).2).2).db.analysis_results.length
      = 2 :=
  ⟨by decide, by decide⟩

/-- C6 amended: the history insert is never a no-op: every successful analyze
    call appends exactly one post row and one analysis row with fresh
    autoincrement identifiers; in a well-formed store the fresh identifier is
    held by exactly one row afterwards, and well-formedness is preserved. -/
theorem C6_amended_insert_never_noop (content : Str) (h : content ≠ [])
    (uid : Option Nat) (now : Nat) (st : WorkerState) (hwf : st.db.WF) :
    ((handleAnalysis (some content) uid now st).2).db.posts.length =
      st.db.posts.length + 1 ∧
    ((handleAnalysis (some content) uid now st).2).db.analysis_results.length =
      st.db.analysis_results.length + 1 ∧
    (((handleAnalysis (some content) uid now st).2).db.posts.filter
        fun p => p.id == st.db.nextPostId).length = 1 ∧
    ((handleAnalysis (some content) uid now st).2).db.WF := by
  rw [handleAnalysis_ok h]
  refine ⟨by simp, by simp, ?_, ?_, ?_⟩
  · rw [List.filter_append]
    have hnil : (st.db.posts.filter fun p => p.id == st.db.nextPostId) = [] := by
      rw [List.filter_eq_nil_iff]
      intro p hp
      have hlt := hwf.1 p hp
      simp only [beq_iff_eq]
      omega
    rw [hnil]
    simp
  · intro p hp
    rcases List.mem_append.mp hp with hp | hp
    · exact Nat.lt_succ_of_lt (hwf.1 p hp)
    · simp only [List.mem_singleton] at hp
      subst hp
      exact Nat.lt_succ_self _
  · intro a ha
    rcases List.mem_append.mp ha with ha | ha
    · exact Nat.lt_succ_of_lt (hwf.2 a ha)
    · simp only [List.mem_singleton] at ha
      subst ha
      exact Nat.lt_succ_self _

theorem C6_witness :
    ((handleAnalysis (some "hello world".toList) none 3 state0).2).db.posts.length =
      state0.db.posts.length + 1 ∧
    ((handleAnalysis (some "hello world".toList) none 3 state0).2).db.analysis_results.length =
      state0.db.analysis_results.length + 1 ∧
    (((handleAnalysis (some "hello world".toList) none 3 state0).2).db.posts.filter
        fun p => p.id == state0.db.nextPostId).length = 1 ∧
    ((handleAnalysis (some "hello world".toList) none 3 state0).2).db.WF :=
  C6_amended_insert_never_noop "hello world".toList (by decide) none 3 state0
    ⟨by simp [state0], by simp [state0]⟩

/-- C9: the implicit heuristic contract of the analyze handler: the response
    score is 0.35 exactly when the lowercased content has one of the five fixed
    substrings and 0.75 otherwise, the misinformation flag in the response
    equals the one persisted in the analysis row and is true exactly for score
    0.35, and the confidence is the constant 0.85 in both. -/
theorem C9_keyword_heuristic_exact (content : Str) (uid : Option Nat) (now : Nat)
    (st : WorkerState) (h : content ≠ []) :
    ∃ resp arow,
      (handleAnalysis (some content) uid now st).1 = .ok resp ∧
      ((handleAnalysis (some content) uid now st).2).db.analysis_results =
        st.db.analysis_results ++ [arow] ∧
      (resp.credibility_score = 0.35 ↔
        (containsSubstr "click here".toList (jsToLower content) = true ∨
         containsSubstr "act now".toList (jsToLower content) = true ∨
         containsSubstr "limited time".toList (jsToLower content) = true ∨
         containsSubstr "guaranteed".toList (jsToLower content) = true ∨
         containsSubstr "free money".toList (jsToLower content) = true)) ∧
      (resp.credibility_score = 0.35 ∨ resp.credibility_score = 0.75) ∧
      (resp.is_misinformation = true ↔ resp.credibility_score = 0.35) ∧
      arow.credibility_score = resp.credibility_score ∧
      arow.is_misinformation = resp.is_misinformation ∧
      resp.confidence = 0.85 ∧ arow.confidence = 0.85 := by
  have hiff := credibilityScore_eq_q035_iff content
  rw [handleAnalysis_ok h]
  refine ⟨_, _, rfl, rfl, ?_, ?_, ?_, rfl, rfl, ?_, ?_⟩
  · rw [show (0.35:ℚ) = q035 from q035_eq.symm]
    exact hiff.trans (foundSuspicious_iff content)
  · rcases credibilityScore_cases content with hc | hc
    · exact Or.inl (by rw [hc, q035_eq])
    · exact Or.inr (by rw [hc, q075_eq])
  · rw [show (0.35:ℚ) = q035 from q035_eq.symm]
    exact isMisinformation_iff content
  · show confidence = 0.85
    rw [confidence, q085_eq]
  · show confidence = 0.85
    rw [confidence, q085_eq]

theorem C9_witness :
    ∃ resp arow,
      (handleAnalysis (some "Get free money now".toList) none 4 state0).1 = .ok resp ∧
      ((handleAnalysis (some "Get free money now".toList) none 4 state0).2).db.analysis_results =
        state0.db.analysis_results ++ [arow] ∧
      (resp.credibility_score = 0.35 ↔
        (containsSubstr "click here".toList (jsToLower "Get free money now".toList) = true ∨
         containsSubstr "act now".toList (jsToLower "Get free money now".toList) = true ∨
         containsSubstr "limited time".toList (jsToLower "Get free money now".toList) = true ∨
         containsSubstr "guaranteed".toList (jsToLower "Get free money now".toList) = true ∨
         containsSubstr "free money".toList (jsToLower "Get free money now".toList) = true)) ∧
      (resp.credibility_score = 0.35 ∨ resp.credibility_score = 0.75) ∧
      (resp.is_misinformation = true ↔ resp.credibility_score = 0.35) ∧
      arow.credibility_score = resp.credibility_score ∧
      arow.is_misinformation = resp.is_misinformation ∧
      resp.confidence = 0.85 ∧ arow.confidence = 0.85 :=
  C9_keyword_heuristic_exact "Get free money now".toList none 4 state0 (by decide)

/- Facts about the posts query, used for C10. -/

lemma joinPost_mem {analyses : List AnalysisRow} {p : PostRow} {r : JoinedRow}
    (hr : r ∈ joinPost analyses p) :
    r.user_id = p.user_id ∧ r.created_at = p.created_at := by
  unfold joinPost at hr
  split at hr
  · simp only [List.mem_singleton] at hr
    subst hr
    exact ⟨rfl, rfl⟩
  · rcases List.mem_map.mp hr with ⟨a, _, rfl⟩
    exact ⟨rfl, rfl⟩

lemma pairwise_desc_of_const {l : List JoinedRow} {t : Nat}
    (h : ∀ r ∈ l, r.created_at = t) :
    l.Pairwise fun a b => b.created_at ≤ a.created_at := by
  induction l with
  | nil => exact List.Pairwise.nil
  | cons x xs ih =>
    refine List.Pairwise.cons ?_ (ih fun r hr => h r (List.mem_cons_of_mem _ hr))
    intro y hy
    rw [h y (List.mem_cons_of_mem _ hy), h x (List.mem_cons_self _ _)]

lemma postsQuery_pairwise (db : Db) (userId : Nat) :
    (postsQuery db userId).Pairwise fun a b => b.created_at ≤ a.created_at := by
  unfold postsQuery
  refine List.Pairwise.sublist (List.take_sublist _ _) ?_
  rw [List.pairwise_flatten]
  constructor
  · intro l hl
    rcases List.mem_map.mp hl with ⟨p, _, rfl⟩
    exact pairwise_desc_of_const fun r hr => (joinPost_mem hr).2
  · rw [List.pairwise_map]
    have hs := List.sorted_insertionSort postLaterEq
      (db.posts.filter fun p => p.user_id == userId)
    refine hs.imp ?_
    intro p q hpq x hx y hy
    rw [(joinPost_mem hx).2, (joinPost_mem hy).2]
    exact hpq

lemma postsQuery_user {db : Db} {userId : Nat} {r : JoinedRow}
    (hr : r ∈ postsQuery db userId) : r.user_id = userId := by
  unfold postsQuery at hr
  have hr2 := List.take_subset _ _ hr
  rcases List.mem_flatten.mp hr2 with ⟨l, hl, hrl⟩
  rcases List.mem_map.mp hl with ⟨p, hp, rfl⟩
  rw [List.mem_insertionSort] at hp
  have hpu := List.of_mem_filter hp
  rw [(joinPost_mem hrl).1]
  exact beq_iff_eq.mp hpu

/-- C10: the posts read is independent of the caller: any two GET requests,
    whatever their tokens or query parameters, get the identical response,
    which lists the posts of the fixed user id 1, at most 20 joined rows,
    ordered by creation timestamp descending. -/
theorem C10_posts_caller_independent (req1 req2 : PostsRequest) (db : Db)
    (h1 : req1.method = "GET".toList) (h2 : req2.method = "GET".toList) :
    handlePosts req1 db = handlePosts req2 db ∧
    handlePosts req1 db = .ok (postsQuery db 1) (postsQuery db 1).length ∧
    (postsQuery db 1).length ≤ 20 ∧
    (∀ r ∈ postsQuery db 1, r.user_id = 1) ∧
    (postsQuery db 1).Pairwise (fun a b => b.created_at ≤ a.created_at) := by
  refine ⟨?_, ?_, ?_, ?_, ?_⟩
  · simp [handlePosts, h1, h2]
  · simp [handlePosts, h1]
  · exact List.length_take_le _ _
  · intro r hr
    exact postsQuery_user hr
  · exact postsQuery_pairwise db 1

theorem C10_witness :
    handlePosts ⟨"GET".toList, some "token-a".toList, []⟩ state0.db =
      handlePosts ⟨"GET".toList, none, [("user_id".toList, "42".toList)]⟩ state0.db ∧
    handlePosts ⟨"GET".toList, some "token-a".toList, []⟩ state0.db =
      .ok (postsQuery state0.db 1) (postsQuery state0.db 1).length ∧
    (postsQuery state0.db 1).length ≤ 20 ∧
    (∀ r ∈ postsQuery state0.db 1, r.user_id = 1) ∧
    (postsQuery state0.db 1).Pairwise (fun a b => b.created_at ≤ a.created_at) :=
  C10_posts_caller_independent ⟨"GET".toList, some "token-a".toList, []⟩
    ⟨"GET".toList, none, [("user_id".toList, "42".toList)]⟩ state0.db rfl rfl

end PixelPirates
